import Mathlib

/-!
Verification development for the camera-calibration lab repository.

Two scripts are modelled:
* `lab5.0_gen_chessboard.py` — generates a 9x6-internal-corner chessboard
  pattern on an A4-sized canvas and rotates it to portrait orientation.
* `lab5.2_trf_interactive_student_copy.py` — an interactive transform
  visualizer: trackbar positions are converted to angle / translation /
  scale parameters, a 2x3 affine matrix is built per frame and the image
  is warped with it; image acquisition falls back to a generated
  placeholder.

Definitions are shallow embeddings of the Python source; library calls
(`cv2.rectangle`, `cv2.rotate`, `cv2.getRotationMatrix2D`,
`cv2.warpAffine`, `cv2.imread`/`imwrite`) are modelled by their
documented semantics.
-/

namespace CvLab

/-! ### Chessboard generator (`lab5.0_gen_chessboard.py`) -/

/-- A4 paper width in pixels at 300 DPI (`A4_WIDTH_PX = 2480`). -/
def A4_WIDTH_PX : ℕ := 2480

/-- A4 paper height in pixels at 300 DPI (`A4_HEIGHT_PX = 3508`). -/
def A4_HEIGHT_PX : ℕ := 3508

/-- Number of squares horizontally (`BOARD_COLS = 10`). -/
def BOARD_COLS : ℕ := 10

/-- Number of squares vertically (`BOARD_ROWS = 7`). -/
def BOARD_ROWS : ℕ := 7

/-- Size of each square in pixels (`SQUARE_SIZE_PX = 300`). -/
def SQUARE_SIZE_PX : ℕ := 300

/-- Total board width in pixels: `board_w = BOARD_COLS * SQUARE_SIZE_PX`. -/
def board_w : ℕ := BOARD_COLS * SQUARE_SIZE_PX

/-- Total board height in pixels: `board_h = BOARD_ROWS * SQUARE_SIZE_PX`. -/
def board_h : ℕ := BOARD_ROWS * SQUARE_SIZE_PX

/-- Horizontal offset centering the board on the landscape canvas:
`start_x = (A4_HEIGHT_PX - board_w) // 2`.  All quantities are
non-negative, so natural subtraction and division agree with Python. -/
def start_x : ℕ := (A4_HEIGHT_PX - board_w) / 2

/-- Vertical offset centering the board on the landscape canvas:
`start_y = (A4_WIDTH_PX - board_h) // 2`. -/
def start_y : ℕ := (A4_WIDTH_PX - board_h) / 2

/-- Left pixel coordinate of the square in column `c`:
`top_left_x = start_x + c * SQUARE_SIZE_PX`. -/
def top_left_x (c : ℕ) : ℕ := start_x + c * SQUARE_SIZE_PX

/-- Top pixel coordinate of the square in row `r`:
`top_left_y = start_y + r * SQUARE_SIZE_PX`. -/
def top_left_y (r : ℕ) : ℕ := start_y + r * SQUARE_SIZE_PX

/-- Right pixel coordinate of the square in column `c`:
`bottom_right_x = top_left_x + SQUARE_SIZE_PX`.  `cv2.rectangle` with
thickness `-1` fills pixels up to and including this coordinate. -/
def bottom_right_x (c : ℕ) : ℕ := top_left_x c + SQUARE_SIZE_PX

/-- Bottom pixel coordinate of the square in row `r`:
`bottom_right_y = top_left_y + SQUARE_SIZE_PX`. -/
def bottom_right_y (r : ℕ) : ℕ := top_left_y r + SQUARE_SIZE_PX

/-- The squares `(r, c)` that receive a black `cv2.rectangle` fill,
emitted in the order of the nested `for r / for c` loop, which paints
exactly when `(r + c) % 2 == 0`. -/
def paintedSquares : List (ℕ × ℕ) :=
  (List.range BOARD_ROWS).foldl (fun acc r =>
    (List.range BOARD_COLS).foldl (fun acc2 c =>
      if (r + c) % 2 == 0 then acc2 ++ [(r, c)] else acc2) acc) []

/-- Colour of board square `(r, c)` after the paint loop: squares that
received a fill are black (0), every other square keeps the canvas
colour white (255). -/
def squareColor (r c : ℕ) : ℕ := if (r, c) ∈ paintedSquares then 0 else 255

/-- A raster image: a number of rows and columns together with the pixel
intensity at each (row, column) position. -/
structure Img where
  rows : ℕ
  cols : ℕ
  px : ℕ → ℕ → ℕ

/-- `np.full((r, c), v, dtype=np.uint8)`: an `r × c` raster with every
pixel set to `v`. -/
def npFull (r c v : ℕ) : Img := ⟨r, c, fun _ _ => v⟩

/-- The initial canvas: `np.full((A4_WIDTH_PX, A4_HEIGHT_PX), 255)` —
2480 rows by 3508 columns of white. -/
def canvas0 : Img := npFull A4_WIDTH_PX A4_HEIGHT_PX 255

/-- `cv2.rectangle(img, (x1,y1), (x2,y2), 0, -1)`: fill the axis-aligned
rectangle with corners `(x1,y1)` and `(x2,y2)` (both inclusive) with
black. -/
def rectFill (img : Img) (x1 y1 x2 y2 : ℕ) : Img :=
  ⟨img.rows, img.cols, fun y x =>
    if x1 ≤ x ∧ x ≤ x2 ∧ y1 ≤ y ∧ y ≤ y2 then 0 else img.px y x⟩

/-- The canvas after the paint loop: each painted square's rectangle is
filled black in loop order. -/
def paintedCanvas : Img :=
  paintedSquares.foldl (fun img rc =>
    rectFill img (top_left_x rc.2) (top_left_y rc.1)
      (bottom_right_x rc.2) (bottom_right_y rc.1)) canvas0

/-- `cv2.rotate(img, cv2.ROTATE_90_COUNTERCLOCKWISE)` (rotation code 2):
the result has the source's dimensions swapped, and pixel `(i, j)` of
the result is pixel `(j, cols - 1 - i)` of the source. -/
def rotate90CCW (img : Img) : Img :=
  ⟨img.cols, img.rows, fun i j => img.px j (img.cols - 1 - i)⟩

/-- The portrait-oriented output image written to disk:
`canvas_portrait = cv2.rotate(canvas, 2)`. -/
def canvas_portrait : Img := rotate90CCW paintedCanvas

/-! ### Theorems for the chessboard generator -/

/-- C3: for every row `r < 7` and column `c < 10`, square `(r, c)` is
painted black exactly when `(r + c) % 2 = 0`, and exactly 35 squares
(the ceiling of 70 / 2) are painted black. -/
theorem chessboard_black_iff_even_and_count :
    (∀ r, r < BOARD_ROWS → ∀ c, c < BOARD_COLS →
      (squareColor r c = 0 ↔ (r + c) % 2 = 0)) ∧
    paintedSquares.length = 35 ∧ 35 = (70 + 1) / 2 := by
  decide

/-- Witness for C3 at the concrete square `(0, 0)`. -/
theorem chessboard_black_iff_even_and_count_witness :
    squareColor 0 0 = 0 ↔ (0 + 0) % 2 = 0 :=
  chessboard_black_iff_even_and_count.1 0 (by decide) 0 (by decide)

/-- C4: the canvas is created at the fixed A4 size — 2480 by 3508
pixels — initialized to uniform white (255), and the written output
`canvas_portrait` has portrait dimensions 3508 rows by 2480 columns. -/
theorem canvas_white_and_portrait_dims :
    canvas0.rows = 2480 ∧ canvas0.cols = 3508 ∧
    (∀ y x, canvas0.px y x = 255) ∧
    canvas_portrait.rows = 3508 ∧ canvas_portrait.cols = 2480 := by
  refine ⟨rfl, rfl, fun y x => rfl, ?_, ?_⟩ <;> decide

/-- C9: every painted square lies entirely within the pre-rotation
landscape canvas: its pixels' x-coordinates stay below 3508 and its
y-coordinates stay below 2480 (inclusive bottom-right corner counted). -/
theorem board_fits_in_canvas (r c : ℕ) (hr : r < BOARD_ROWS)
    (hc : c < BOARD_COLS) (hpaint : (r + c) % 2 = 0) :
    bottom_right_x c < A4_HEIGHT_PX ∧ bottom_right_y r < A4_WIDTH_PX := by
  simp only [bottom_right_x, top_left_x, start_x, bottom_right_y, top_left_y,
    start_y, A4_HEIGHT_PX, A4_WIDTH_PX, board_w, board_h, BOARD_COLS,
    BOARD_ROWS, SQUARE_SIZE_PX] at hr hc ⊢
  omega

/-- Witness for C9 at the painted square `(0, 0)`. -/
theorem board_fits_in_canvas_witness :
    bottom_right_x 0 < A4_HEIGHT_PX ∧ bottom_right_y 0 < A4_WIDTH_PX :=
  board_fits_in_canvas 0 0 (by decide) (by decide) (by decide)

/-! ### Transform visualizer (`lab5.2_trf_interactive_student_copy.py`):
trackbar configuration and slider-to-value mapping -/

/-- One entry of `TRACKBARS_CONFIG`: `(min_val, max_val, default_pos)`
(the name component is omitted). -/
structure TrackbarConfig where
  minVal : ℤ
  maxVal : ℤ
  defaultPos : ℤ
deriving DecidableEq

/-- `TRACKBARS_CONFIG['Angle'] = ('Angle', -180, 180, 180)`. -/
def angleCfg : TrackbarConfig := ⟨-180, 180, 180⟩

/-- `TRACKBARS_CONFIG['Translate X'] = ('Translate X', -150, 150, 150)`. -/
def txCfg : TrackbarConfig := ⟨-150, 150, 150⟩

/-- `TRACKBARS_CONFIG['Translate Y'] = ('Translate Y', -100, 100, 100)`. -/
def tyCfg : TrackbarConfig := ⟨-100, 100, 100⟩

/-- `TRACKBARS_CONFIG['Scale'] = ('Scale', 20, 200, 100)`. -/
def scaleCfg : TrackbarConfig := ⟨20, 200, 100⟩

/-- Trackbar range from `setup_ui`:
`range_max = max_val if min_val == 0 else max_val - min_val`.  The
trackbar then accepts raw positions in `[0, range_max]`. -/
def rangeMax (cfg : TrackbarConfig) : ℤ :=
  if cfg.minVal = 0 then cfg.maxVal else cfg.maxVal - cfg.minVal

/-- Raw position `pos` is within the trackbar's effective range. -/
def posInRange (cfg : TrackbarConfig) (pos : ℤ) : Prop :=
  0 ≤ pos ∧ pos ≤ rangeMax cfg

instance (cfg : TrackbarConfig) (pos : ℤ) : Decidable (posInRange cfg pos) := by
  unfold posInRange; infer_instance

/-- Logical angle from the main loop:
`angle = angle_pos + TRACKBARS_CONFIG['Angle'][1]`. -/
def angleVal (pos : ℤ) : ℤ := pos + angleCfg.minVal

/-- Logical x-translation: `tx = tx_pos + TRACKBARS_CONFIG['Translate X'][1]`. -/
def txVal (pos : ℤ) : ℤ := pos + txCfg.minVal

/-- Logical y-translation: `ty = ty_pos + TRACKBARS_CONFIG['Translate Y'][1]`. -/
def tyVal (pos : ℤ) : ℤ := pos + tyCfg.minVal

/-- Mode constant: `mode = 0` is Rigid. -/
def RIGID : ℤ := 0

/-- Mode constant: `mode = 1` is Similarity. -/
def SIMILARITY : ℤ := 1

/-- Scale used by the main loop to build the transform matrix:
`scale = 1.0` when `mode == 0` (Rigid), else `scale = scale_pos / 100.0`.
Note the raw position is divided directly — the configured minimum (20)
is never added, unlike the angle and translation sliders. -/
def frameScale (mode : ℤ) (scalePos : ℤ) : ℚ :=
  if mode = 0 then 1 else (scalePos : ℚ) / 100

/-! ### Theorems for the slider mappings -/

/-- C1 (counter-evidence): at raw Scale position 0 — inside the
effective range `[0, 180]` — the Similarity-mode scale is `0`, outside
the claimed interval `[0.20, 2.00]`; and the raw position is not offset
by the configured minimum 20, since that offset would give `0.2`.
Moreover the top of the range yields `1.8`, not `2.0`. -/
theorem scale_mapping_breaks_claimed_range :
    posInRange scaleCfg 0 ∧
    frameScale SIMILARITY 0 = 0 ∧
    ¬ (1/5 ≤ frameScale SIMILARITY 0 ∧ frameScale SIMILARITY 0 ≤ 2) ∧
    frameScale SIMILARITY 0 ≠ (0 + scaleCfg.minVal : ℚ) / 100 ∧
    rangeMax scaleCfg = 180 ∧
    frameScale SIMILARITY 180 = 9/5 := by
  refine ⟨by decide, ?_, ?_, ?_, by decide, ?_⟩ <;>
    norm_num [frameScale, SIMILARITY, scaleCfg, rangeMax]

/-- C2 (counter-evidence): in Similarity mode with the Scale trackbar at
raw position 0 (inside its effective range), the scale passed to
`cv2.getRotationMatrix2D` is exactly 0, while in Rigid mode the scale is
always 1. -/
theorem scale_reaches_zero_in_similarity :
    posInRange scaleCfg 0 ∧ frameScale SIMILARITY 0 = 0 ∧
    (∀ pos : ℤ, frameScale RIGID pos = 1) := by
  refine ⟨by decide, ?_, fun pos => ?_⟩ <;>
    norm_num [frameScale, SIMILARITY, RIGID]

/-- C6: in Rigid mode (`mode = 0`) the scale used to build the transform
matrix is exactly 1, regardless of the Scale slider's position. -/
theorem rigid_scale_always_one (scalePos : ℤ) :
    frameScale RIGID scalePos = 1 := by
  norm_num [frameScale, RIGID]

/-! ### Mode state machine -/

/-- ASCII code of the escape key checked by the loop (`key == 27`). -/
def KEY_ESC : ℕ := 27

/-- ASCII code of the mode-toggle key (`ord('m') = 109`). -/
def KEY_M : ℕ := 109

/-- Initial mode at loop entry: `mode = 0` (Rigid). -/
def initialMode : ℤ := 0

/-- Mode update for one loop iteration's key handling: the toggle key
executes `mode = 1 - mode`; every other key leaves the mode unchanged
(`ESC` exits the loop without modifying the mode). -/
def modeStep (mode : ℤ) (key : ℕ) : ℤ :=
  if key = KEY_M then 1 - mode else mode

/-- C8: the mode starts as Rigid; pressing the toggle key flips Rigid to
Similarity and back; any key other than the toggle key leaves the mode
unchanged; and two successive toggles restore any mode (involution). -/
theorem mode_toggle_involution :
    initialMode = RIGID ∧
    modeStep RIGID KEY_M = SIMILARITY ∧
    modeStep SIMILARITY KEY_M = RIGID ∧
    (∀ key, key ≠ KEY_M → ∀ mode : ℤ, modeStep mode key = mode) ∧
    (∀ mode : ℤ, modeStep (modeStep mode KEY_M) KEY_M = mode) := by
  refine ⟨rfl, by decide, by decide, fun key hk mode => ?_, fun mode => ?_⟩
  · simp [modeStep, hk]
  · simp [modeStep]

/-- Witness for C8: a non-toggle key (ESC) leaves the Rigid mode
unchanged. -/
theorem mode_toggle_involution_witness :
    modeStep RIGID KEY_ESC = RIGID :=
  mode_toggle_involution.2.2.2.1 KEY_ESC (by decide) RIGID

/-! ### Image acquisition (`get_image` / `download_image` / `main`)

The filesystem and network effects are modelled explicitly: the target
file is either missing, present-but-undecodable, or a decodable image;
the network either fails or delivers bytes; `cv2.imwrite` either
succeeds or fails.  `get_image` is embedded as a function from this
environment to its returned value together with the effects it
performed. -/

/-- A decoded colour image: dimensions, channel count, and whether the
caption text has been rendered onto it (`cv2.putText`). -/
structure Image where
  rows : ℕ
  cols : ℕ
  channels : ℕ
  caption : Bool
deriving DecidableEq

/-- State of the target file on disk. -/
inductive FileState where
  /-- `os.path.exists` is false. -/
  | missing
  /-- The file exists but `cv2.imread` cannot decode it. -/
  | corrupt
  /-- The file exists and decodes to `img`. -/
  | valid (img : Image)
deriving DecidableEq

/-- `os.path.exists(filename)`. -/
def fileExists : FileState → Bool
  | .missing => false
  | _ => true

/-- `cv2.imread(filename)`: the decoded image, or `None` when the file
is missing or undecodable. -/
def imread : FileState → Option Image
  | .valid img => some img
  | _ => none

/-- The execution environment of one `get_image` call. -/
structure Env where
  /-- State of the target file when `get_image` is entered. -/
  initialFile : FileState
  /-- Result of a download attempt: `none` = network failure
  (`requests` raises, `download_image` logs and returns); `some fs` =
  the downloaded bytes leave the file in state `fs`. -/
  net : Option FileState
  /-- Whether `cv2.imwrite` of the placeholder succeeds. -/
  writeOk : Bool
deriving DecidableEq

/-- The placeholder synthesized when loading fails:
`np.zeros((400, 600, 3))` filled with the dark background colour, with
the centered caption "Sample Image" rendered by `cv2.putText`. -/
def placeholder : Image := ⟨400, 600, 3, true⟩

/-- Result of a `get_image` call: the returned value, the final state of
the target file, and which side effects were performed. -/
structure GetImageResult where
  result : Option Image
  finalFile : FileState
  didDownload : Bool
  didWrite : Bool
deriving DecidableEq

/-- Shallow embedding of `get_image`:
if the file does not exist, attempt a download (best effort — a network
failure leaves the file unchanged); load the file; if loading failed,
synthesize the placeholder, write it to disk and reload it; return
whatever the final load produced. -/
def get_image (env : Env) : GetImageResult :=
  let dl := !fileExists env.initialFile
  let file1 :=
    if fileExists env.initialFile then env.initialFile
    else match env.net with
      | none => env.initialFile
      | some fs => fs
  match imread file1 with
  | some img => ⟨some img, file1, dl, false⟩
  | none =>
    let file2 := if env.writeOk then FileState.valid placeholder else file1
    ⟨imread file2, file2, dl, true⟩

/-- `main` enters the display loop exactly when `get_image` returns a
non-`None` image; on `None` it prints a message and returns before
`setup_ui` and `main_loop`. -/
def mainEntersLoop (env : Env) : Bool := (get_image env).result.isSome

/-! ### Theorems for image acquisition -/

/-- C7: with the target file absent and the network unreachable,
`get_image` returns the placeholder — a 600 wide by 400 tall, 3-channel
image with the caption rendered — whenever the placeholder write
succeeds; it returns `None` exactly when the placeholder
write-and-reload round-trip fails, and in that case `main` does not
enter the display loop. -/
theorem get_image_placeholder_fallback (writeOk : Bool) :
    ((get_image ⟨.missing, none, writeOk⟩).result = none ↔ writeOk = false) ∧
    (writeOk = true →
      (get_image ⟨.missing, none, writeOk⟩).result = some placeholder ∧
      placeholder.cols = 600 ∧ placeholder.rows = 400 ∧
      placeholder.channels = 3 ∧ placeholder.caption = true) ∧
    ((get_image ⟨.missing, none, writeOk⟩).result = none →
      mainEntersLoop ⟨.missing, none, writeOk⟩ = false) := by
  cases writeOk <;> simp [get_image, mainEntersLoop, imread, fileExists,
    placeholder]

/-- Witness for C7: with a successful placeholder write, the returned
image is the 600x400 3-channel captioned placeholder. -/
theorem get_image_placeholder_fallback_witness :
    (get_image ⟨.missing, none, true⟩).result = some placeholder ∧
    placeholder.cols = 600 ∧ placeholder.rows = 400 ∧
    placeholder.channels = 3 ∧ placeholder.caption = true :=
  (get_image_placeholder_fallback true).2.1 rfl

/-- C10: when the target file exists and decodes successfully,
`get_image` performs no download and no write, returns the decoded file
content, and leaves the file unchanged. -/
theorem get_image_existing_file_no_effects (img : Image) (net : Option FileState)
    (writeOk : Bool) :
    get_image ⟨.valid img, net, writeOk⟩ =
      ⟨some img, .valid img, false, false⟩ := by
  simp [get_image, imread, fileExists]

/-! ### Transform matrix and warp

`cv2.getRotationMatrix2D`, `cv2.invertAffineTransform` and
`cv2.warpAffine` are modelled over the reals by their documented
formulas: the rotation matrix uses `alpha = scale*cos`,
`beta = scale*sin` about the given center; `warpAffine` (without
`WARP_INVERSE_MAP`) inverts the matrix and samples the source at the
inverse-mapped position with bilinear interpolation, taking the
constant border value outside the source bounds. -/

/-- A 2x3 affine matrix `[[a, b, c], [d, e, f]]`. -/
structure Aff where
  a : ℝ
  b : ℝ
  c : ℝ
  d : ℝ
  e : ℝ
  f : ℝ

/-- `cv2.getRotationMatrix2D((cx, cy), angle, scale)`: with
`alpha = scale * cos(angle in radians)` and `beta = scale * sin(...)`,
the matrix `[[alpha, beta, (1-alpha)*cx - beta*cy],
[-beta, alpha, beta*cx + (1-alpha)*cy]]`. -/
noncomputable def getRotationMatrix2D (cx cy angle scale : ℝ) : Aff :=
  let alpha := scale * Real.cos (angle * Real.pi / 180)
  let beta := scale * Real.sin (angle * Real.pi / 180)
  ⟨alpha, beta, (1 - alpha) * cx - beta * cy,
   -beta, alpha, beta * cx + (1 - alpha) * cy⟩

/-- The per-frame transform matrix of `main_loop`: slider positions are
converted to logical angle / translation / scale values, the rotation
matrix is built about the image center, and `tx`, `ty` are added to the
matrix's translation entries. -/
noncomputable def frameMatrix (mode anglePos txPos tyPos scalePos : ℤ)
    (cx cy : ℝ) : Aff :=
  let angle : ℝ := (angleVal anglePos : ℤ)
  let tx : ℝ := (txVal txPos : ℤ)
  let ty : ℝ := (tyVal tyPos : ℤ)
  let scale : ℝ := ((frameScale mode scalePos : ℚ) : ℝ)
  let M := getRotationMatrix2D cx cy angle scale
  ⟨M.a, M.b, M.c + tx, M.d, M.e, M.f + ty⟩

/-- The identity 2x3 affine matrix. -/
noncomputable def identityAff : Aff := ⟨1, 0, 0, 0, 1, 0⟩

/-- `cv2.invertAffineTransform`: the affine inverse
`[R | t] ↦ [R⁻¹ | -R⁻¹ t]` written out entrywise with the determinant
`D = a*e - b*d`. -/
noncomputable def invertAffineTransform (M : Aff) : Aff :=
  let D := M.a * M.e - M.b * M.d
  ⟨M.e / D, -M.b / D, (M.b * M.f - M.c * M.e) / D,
   -M.d / D, M.a / D, (M.c * M.d - M.a * M.f) / D⟩

/-- Pixel fetch with `BORDER_CONSTANT` semantics: the source pixel at
integer coordinates `(x, y)` when inside the source bounds, else the
border value. -/
noncomputable def fetchPx (src : ℕ → ℕ → ℕ) (rows cols border : ℕ)
    (x y : ℤ) : ℝ :=
  if 0 ≤ x ∧ x < (cols : ℤ) ∧ 0 ≤ y ∧ y < (rows : ℤ) then
    (src y.toNat x.toNat : ℝ)
  else (border : ℝ)

/-- Bilinear (`INTER_LINEAR`) sampling of the source at a real-valued
position `(sx, sy)`: the four neighbouring pixels weighted by the
fractional parts of the coordinates. -/
noncomputable def bilinearSample (src : ℕ → ℕ → ℕ) (rows cols border : ℕ)
    (sx sy : ℝ) : ℝ :=
  let x0 : ℤ := Int.floor sx
  let y0 : ℤ := Int.floor sy
  let dx : ℝ := sx - x0
  let dy : ℝ := sy - y0
  (1 - dx) * (1 - dy) * fetchPx src rows cols border x0 y0 +
  dx * (1 - dy) * fetchPx src rows cols border (x0 + 1) y0 +
  (1 - dx) * dy * fetchPx src rows cols border x0 (y0 + 1) +
  dx * dy * fetchPx src rows cols border (x0 + 1) (y0 + 1)

/-- `cv2.warpAffine(src, M, (cols, rows), borderMode=BORDER_CONSTANT,
borderValue=border)` at output pixel `(x, y)`: sample the source at the
inverse-mapped position. -/
noncomputable def warpAffine (src : ℕ → ℕ → ℕ) (rows cols : ℕ) (M : Aff)
    (border : ℕ) (x y : ℕ) : ℝ :=
  let Minv := invertAffineTransform M
  let sx := Minv.a * x + Minv.b * y + Minv.c
  let sy := Minv.d * x + Minv.e * y + Minv.f
  bilinearSample src rows cols border sx sy

/-- At the default slider positions and Rigid start mode, the per-frame
matrix is the identity. -/
theorem frameMatrix_default (cx cy : ℝ) :
    frameMatrix RIGID 180 150 100 100 cx cy = identityAff := by
  simp [frameMatrix, getRotationMatrix2D, identityAff, angleVal, txVal,
    tyVal, frameScale, angleCfg, txCfg, tyCfg, RIGID]

/-- Warping with the identity matrix reproduces the source exactly at
every in-bounds output pixel. -/
theorem warpAffine_id_eq_src (src : ℕ → ℕ → ℕ) (rows cols border : ℕ)
    (x y : ℕ) (hx : x < cols) (hy : y < rows) :
    warpAffine src rows cols identityAff border x y = (src y x : ℝ) := by
  have hxc : (0 : ℤ) ≤ (x : ℤ) ∧ (x : ℤ) < (cols : ℤ) ∧
      (0 : ℤ) ≤ (y : ℤ) ∧ (y : ℤ) < (rows : ℤ) := by
    refine ⟨Int.natCast_nonneg x, ?_, Int.natCast_nonneg y, ?_⟩ <;>
      exact_mod_cast by omega
  simp only [warpAffine, invertAffineTransform, identityAff, bilinearSample]
  norm_num
  simp [fetchPx, hxc.1, hxc.2.1, hxc.2.2.1, hxc.2.2.2]

/-- C5: with every slider at its default position (Angle 180, Translate
X 150, Translate Y 100, Scale 100) and the initial Rigid mode, the
transform matrix built by the loop is the identity, and the warped
output equals the input at every in-bounds pixel — no border fill
contributes. -/
theorem default_sliders_identity_warp (cx cy : ℝ) (src : ℕ → ℕ → ℕ)
    (rows cols border : ℕ) (x y : ℕ) (hx : x < cols) (hy : y < rows) :
    frameMatrix RIGID 180 150 100 100 cx cy = identityAff ∧
    warpAffine src rows cols (frameMatrix RIGID 180 150 100 100 cx cy)
      border x y = (src y x : ℝ) := by
  refine ⟨frameMatrix_default cx cy, ?_⟩
  rw [frameMatrix_default cx cy]
  exact warpAffine_id_eq_src src rows cols border x y hx hy

/-- Witness for C5 at a concrete one-pixel image. -/
theorem default_sliders_identity_warp_witness :
    frameMatrix RIGID 180 150 100 100 0 0 = identityAff ∧
    warpAffine (fun _ _ => 7) 1 1 (frameMatrix RIGID 180 150 100 100 0 0)
      0 0 0 = ((7 : ℕ) : ℝ) :=
  default_sliders_identity_warp 0 0 (fun _ _ => 7) 1 1 0 0 0
    (by decide) (by decide)

end CvLab
